import Mathlib

/-
Verification of src/config/database.js — the multi-store SQLite connection and
schema-bootstrap manager of the apiv3 repository.

Shallow embedding notes:
* The embedded DDL is modelled as data: for each `db.exec` block of the
  bootstrap functions we record the created table name and the list of tables
  named in its FOREIGN KEY clauses, in source order.  `CREATE INDEX IF NOT
  EXISTS` statements touch no table rows and reference only their own table,
  so index creation is not modelled.
* Table rows are modelled only for the tables the bootstrap seeds
  (`filial`, `tema`, `grupo_acesso`, `usuario_sistema`), with the columns the
  seed statements mention.  `INSERT OR IGNORE` on a table with a UNIQUE key
  is modelled as insert-if-key-absent.
* `bcryptjs` is an external npm library; its `hashSync` is modelled as an
  abstract function `String → Nat → String` (password, cost rounds), and the
  `require`/`hashSync` failure path as the absence of that function.
-/

namespace Db

/-- `CREATE TABLE IF NOT EXISTS n` / `CREATE INDEX IF NOT EXISTS n` at the
level of object names: add the name only when absent. -/
def createIfAbsent (n : String) (ts : List String) : List String :=
  if ts.contains n then ts else ts ++ [n]

/-- A row of `filial` as touched by the seed statement
`INSERT OR IGNORE INTO filial (nome, tipo) VALUES ('Principal', 'loja')`;
`nome` is UNIQUE. -/
structure FilialRow where
  nome : String
  tipo : String
deriving Repr, DecidableEq

/-- A row of `tema` as touched by the seed statement inside the `tema` exec
block; `id` is the PRIMARY KEY. -/
structure TemaRow where
  id : Nat
  cor_primaria : String
  cor_secundaria : String
deriving Repr, DecidableEq

/-- A row of `grupo_acesso` as touched by the seed statement; `nome` is
UNIQUE. -/
structure GrupoAcessoRow where
  nome : String
  descricao : String
deriving Repr, DecidableEq

/-- A row of `usuario_sistema` as touched by the default-admin seed;
`login` is UNIQUE. -/
structure UsuarioSistemaRow where
  nome_completo : String
  login : String
  senha_hash : String
  email : Option String
  filial_id : Option Nat
  grupo_acesso_id : Option Nat
deriving Repr, DecidableEq

/-- Persisted contents of core.db that database.js reads or writes. -/
structure CoreData where
  tables : List String
  tema : List TemaRow
  filial : List FilialRow
deriving Repr, DecidableEq

/-- Persisted contents of auth.db that database.js reads or writes. -/
structure AuthData where
  tables : List String
  grupo_acesso : List GrupoAcessoRow
  usuario_sistema : List UsuarioSistemaRow
deriving Repr, DecidableEq

/-- Persisted contents of audit.db that database.js reads or writes. -/
structure AuditData where
  tables : List String
deriving Repr, DecidableEq

/-- The `db.exec` blocks of `ensureCoreTables` (database.js lines 67-586), in
source order: created table name paired with the tables named in its
FOREIGN KEY clauses. -/
def coreTableDefs : List (String × List String) :=
  [ ("filial", []),
    ("cliente", []),
    ("cliente_endereco", ["cliente"]),
    ("fornecedor", []),
    ("categoria", []),
    ("produto", ["fornecedor", "filial", "categoria"]),
    ("produto_variante", ["produto"]),
    ("produto_imagem", ["produto", "produto_variante"]),
    ("cartao_presente", ["cliente"]),
    ("carrinho_item", ["cliente", "produto_variante"]),
    ("pedido", ["cliente", "filial", "cupom", "cliente_endereco"]),
    ("pedido_item", ["pedido", "produto", "produto_variante"]),
    ("estoque_movimento", ["produto_variante", "produto_variante", "pedido"]),
    ("banner", []),
    ("carrossel", ["produto"]),
    ("cupom", []),
    ("cupom_uso", ["cupom", "pedido", "cliente"]),
    ("notificacao", ["cliente"]),
    ("cancelamento_devolucao", ["pedido"]),
    ("reclamacao", ["cliente", "pedido"]),
    ("reclamacao_midia", ["reclamacao"]),
    ("tema", []),
    ("caixa_sessao", ["filial"]),
    ("caixa_lancamento", ["caixa_sessao", "filial", "pedido", "produto_variante", "cliente"]),
    ("financeiro_conta_pagar", ["filial", "fornecedor"]),
    ("financeiro_conta_receber", ["filial", "cliente"]),
    ("financeiro_fechamento", []) ]

/-- The core tables in creation order. -/
def coreTableNames : List String := coreTableDefs.map Prod.fst

/-- Does every creation statement reference only tables created strictly
earlier (given the accumulator of already-created tables)? -/
def fkRefsOrdered : List (String × List String) → List String → Bool
  | [], _ => true
  | (n, refs) :: rest, created =>
    refs.all created.contains && fkRefsOrdered rest (n :: created)

/-- All (table, referenced table) pairs where the referenced table was not
created strictly earlier in the sequence. -/
def forwardFkRefs : List (String × List String) → List String → List (String × String)
  | [], _ => []
  | (n, refs) :: rest, created =>
    (refs.filter (fun r => !created.contains r)).map (fun r => (n, r))
      ++ forwardFkRefs rest (n :: created)

/-- `INSERT OR IGNORE` into `filial` (UNIQUE key `nome`). -/
def insertOrIgnoreFilial (r : FilialRow) (t : List FilialRow) : List FilialRow :=
  if t.any (fun x => x.nome == r.nome) then t else t ++ [r]

/-- `INSERT OR IGNORE` into `tema` (PRIMARY KEY `id`). -/
def insertOrIgnoreTema (r : TemaRow) (t : List TemaRow) : List TemaRow :=
  if t.any (fun x => x.id == r.id) then t else t ++ [r]

/-- `INSERT OR IGNORE` into `grupo_acesso` (UNIQUE key `nome`). -/
def insertOrIgnoreGrupo (r : GrupoAcessoRow) (t : List GrupoAcessoRow) : List GrupoAcessoRow :=
  if t.any (fun x => x.nome == r.nome) then t else t ++ [r]

/-- `INSERT OR IGNORE` into `usuario_sistema` (UNIQUE key `login`). -/
def insertOrIgnoreUsuario (r : UsuarioSistemaRow) (t : List UsuarioSistemaRow) :
    List UsuarioSistemaRow :=
  if t.any (fun x => x.login == r.login) then t else t ++ [r]

/-- `ensureCoreTables` (database.js lines 67-586), success path: creates every
core table if absent (in source order), seeds `tema` id 1 (the INSERT inside
the `tema` exec block) and the default `filial` row 'Principal'/'loja'. -/
def ensureCoreTables (d : CoreData) : CoreData :=
  { tables := coreTableNames.foldl (fun ts n => createIfAbsent n ts) d.tables,
    tema := insertOrIgnoreTema { id := 1, cor_primaria := "#4a86e8", cor_secundaria := "#357abd" } d.tema,
    filial := insertOrIgnoreFilial { nome := "Principal", tipo := "loja" } d.filial }

/-- The `db.exec` blocks of `ensureAuthTables` (database.js lines 591-789):
created table names in source order. -/
def authTableNames : List String :=
  [ "grupo_acesso", "permissao", "grupo_permissao", "usuario_sistema",
    "urls_autorizadas", "recuperacao_senha", "recuperacao_senha_usuario",
    "api_token", "integracao_token", "webhook_config", "webhook_log",
    "dispositivo_autenticacao", "push_subscription" ]

/-- `ensureAuthTables` (database.js lines 591-789), success path of the table
creation: creates every auth table if absent, seeds the 'Admin' access group,
then tries the default-admin seed.  `bcryptHashSync = some h` models
`require('bcryptjs')` succeeding with `hashSync = h`; `none` models the
`require` (or `hashSync`) throwing, in which case the catch block logs a
warning (the returned Bool) and skips only that seed.  When bcrypt is
available the code first checks `SELECT id FROM usuario_sistema WHERE
login = 'admin'` and inserts the default admin row only when absent. -/
def ensureAuthTables (bcryptHashSync : Option (String → Nat → String)) (d : AuthData) :
    AuthData × Bool :=
  let tables := authTableNames.foldl (fun ts n => createIfAbsent n ts) d.tables
  let grupos := insertOrIgnoreGrupo
    { nome := "Admin", descricao := "Administrador total do sistema" } d.grupo_acesso
  match bcryptHashSync with
  | none =>
    ({ tables := tables, grupo_acesso := grupos, usuario_sistema := d.usuario_sistema }, true)
  | some hashSync =>
    if d.usuario_sistema.any (fun u => u.login == "admin") then
      ({ tables := tables, grupo_acesso := grupos, usuario_sistema := d.usuario_sistema }, false)
    else
      let adminSenhaHash := hashSync "admin123" 10
      ({ tables := tables, grupo_acesso := grupos,
         usuario_sistema := insertOrIgnoreUsuario
           { nome_completo := "Administrador", login := "admin",
             senha_hash := adminSenhaHash, email := none,
             filial_id := some 1, grupo_acesso_id := some 1 } d.usuario_sistema },
       false)

/-- `ensureAuditTables` (database.js lines 794-820), success path: creates
`audit_log` if absent. -/
def ensureAuditTables (d : AuditData) : AuditData :=
  { tables := createIfAbsent "audit_log" d.tables }

/-- A fresh, empty core.db file. -/
def emptyCore : CoreData := { tables := [], tema := [], filial := [] }

/-- A fresh, empty auth.db file. -/
def emptyAuth : AuthData := { tables := [], grupo_acesso := [], usuario_sistema := [] }

/-- A fresh, empty audit.db file. -/
def emptyAudit : AuditData := { tables := [], }

/-! ### Transaction executor -/

/-- The spec's `TransactionError`: an error wrapping the original cause raised
by the work function. -/
structure TransactionError where
  cause : String
deriving Repr, DecidableEq

/-- Modelled from the spec: the storage engine's transaction wrapper
`db.transaction(fn)()`, whose implementation lives in `./sqlite-compat`, a
file of this repository that is not under src/.  Per spec §4.4 the executor
runs `work` at most once; on success all its mutations are committed, on
failure no partial state is retained and the failure is propagated to the
caller as a `TransactionError` wrapping the original cause.  `work` maps the
store's data to either its mutated data or a raised error; the result pairs
what the caller observes with the store's data after the call. -/
def engineTransaction {σ : Type} (fn : σ → Except String σ) (s : σ) :
    Except TransactionError σ × σ :=
  match fn s with
  | .ok s2 => (.ok s2, s2)
  | .error e => (.error { cause := e }, s)

/-- `transaction(db, fn)` (database.js lines 883-885):
`return db.transaction(fn)();`. -/
def transaction {σ : Type} (fn : σ → Except String σ) (s : σ) :
    Except TransactionError σ × σ :=
  engineTransaction fn s

/-! ### Store registry -/

/-- Outcome of one fallible step of a getter call: either it succeeds or it
throws a JS error with the given message. -/
inductive StepOutcome where
  | ok : StepOutcome
  | fail : String → StepOutcome

/-- Environment of one getter call: whether `new Database(...)` succeeds,
whether the `db.pragma` directives succeed, whether the `ensure*Tables`
DDL statements succeed, and the bcrypt capability (used by `getAuth` only). -/
structure Env where
  openO : StepOutcome
  pragmaO : StepOutcome
  bootO : StepOutcome
  bcrypt : Option (String → Nat → String)

/-- Errors observable by callers of the getters.  The code only ever
(re)throws the underlying JS error unchanged (`raw`); `connectionError` is
the error shape the spec's §7 taxonomy describes — a wrapper carrying the
store name and the underlying cause — stated here so the spec's claim can be
compared against what the code produces.  The source never constructs it. -/
inductive DbError where
  | raw : String → DbError
  | connectionError : String → String → DbError
deriving Repr, DecidableEq

/-- The durability directives `initDatabase` applies, in source order
(database.js lines 46-50). -/
def pragmaDirectives : List String :=
  [ "journal_mode = WAL", "foreign_keys = ON", "synchronous = NORMAL",
    "cache_size = -64000", "temp_store = MEMORY" ]

/-- A connection handle (`new Database(...)` result): its identity, the
durability directives applied to it, and whether its store's
`ensure*Tables` bootstrap completed on it. -/
structure Handle where
  connId : Nat
  pragmas : List String
  bootstrapped : Bool
deriving Repr, DecidableEq

/-- Is the observed failure a `connectionError`-shaped value? -/
def isConnectionError : Except DbError Handle → Bool
  | .error (.connectionError _ _) => true
  | _ => false

/-- The persisted files of the three stores. -/
structure Disk where
  core : CoreData
  auth : AuthData
  audit : AuditData
deriving Repr, DecidableEq

/-- Whole-module state: the three module-level connection variables
(database.js lines 32-34), the persisted files, and instrumentation counters
(fresh connection ids, successful `new Database` constructions, durability
profile applications, `ensure*Tables` runs per store, connection ids passed
to `.close()`). -/
structure Sys where
  coreDb : Option Handle
  authDb : Option Handle
  auditDb : Option Handle
  disk : Disk
  nextId : Nat
  opens : Nat
  pragmaRuns : Nat
  coreBoots : Nat
  authBoots : Nat
  auditBoots : Nat
  closed : List Nat
deriving Repr, DecidableEq

/-- `initDatabase(dbPath, name)` (database.js lines 39-58): constructs the
engine connection, applies the durability pragmas, and on any failure logs
and rethrows the same error (`catch (error) ... throw error`). -/
def initDatabase (env : Env) (s : Sys) : Except DbError Handle × Sys :=
  match env.openO with
  | .fail m => (.error (.raw m), s)
  | .ok =>
    let s1 := { s with nextId := s.nextId + 1, opens := s.opens + 1,
                       pragmaRuns := s.pragmaRuns + 1 }
    match env.pragmaO with
    | .fail m => (.error (.raw m), s1)
    | .ok => (.ok { connId := s.nextId, pragmas := pragmaDirectives, bootstrapped := false }, s1)

/-- `getCore()` (database.js lines 829-835).  Note the source order: the
handle is assigned to the module-level `coreDb` variable before
`ensureCoreTables(coreDb)` runs, so a bootstrap failure leaves the handle
cached.  `ensureCoreTables` rethrows its caught error unchanged. -/
def getCore (env : Env) (s : Sys) : Except DbError Handle × Sys :=
  match s.coreDb with
  | some db => (.ok db, s)
  | none =>
    match initDatabase env s with
    | (.error e, s1) => (.error e, s1)
    | (.ok db, s1) =>
      let s2 := { s1 with coreDb := some db }
      match env.bootO with
      | .fail m => (.error (.raw m), { s2 with coreBoots := s2.coreBoots + 1 })
      | .ok =>
        let db2 := { db with bootstrapped := true }
        (.ok db2,
         { s2 with coreDb := some db2,
                   disk := { s2.disk with core := ensureCoreTables s2.disk.core },
                   coreBoots := s2.coreBoots + 1 })

/-- `getAuth()` (database.js lines 840-846); same structure as `getCore`. -/
def getAuth (env : Env) (s : Sys) : Except DbError Handle × Sys :=
  match s.authDb with
  | some db => (.ok db, s)
  | none =>
    match initDatabase env s with
    | (.error e, s1) => (.error e, s1)
    | (.ok db, s1) =>
      let s2 := { s1 with authDb := some db }
      match env.bootO with
      | .fail m => (.error (.raw m), { s2 with authBoots := s2.authBoots + 1 })
      | .ok =>
        let db2 := { db with bootstrapped := true }
        (.ok db2,
         { s2 with authDb := some db2,
                   disk := { s2.disk with auth := (ensureAuthTables env.bcrypt s2.disk.auth).1 },
                   authBoots := s2.authBoots + 1 })

/-- `getAudit()` (database.js lines 851-857); same structure as `getCore`. -/
def getAudit (env : Env) (s : Sys) : Except DbError Handle × Sys :=
  match s.auditDb with
  | some db => (.ok db, s)
  | none =>
    match initDatabase env s with
    | (.error e, s1) => (.error e, s1)
    | (.ok db, s1) =>
      let s2 := { s1 with auditDb := some db }
      match env.bootO with
      | .fail m => (.error (.raw m), { s2 with auditBoots := s2.auditBoots + 1 })
      | .ok =>
        let db2 := { db with bootstrapped := true }
        (.ok db2,
         { s2 with auditDb := some db2,
                   disk := { s2.disk with audit := ensureAuditTables s2.disk.audit },
                   auditBoots := s2.auditBoots + 1 })

/-- `closeAll()` (database.js lines 862-878): for each non-null connection
variable, close the handle and null the variable. -/
def closeAll (s : Sys) : Sys :=
  let s1 := match s.coreDb with
    | some db => { s with coreDb := none, closed := s.closed ++ [db.connId] }
    | none => s
  let s2 := match s1.authDb with
    | some db => { s1 with authDb := none, closed := s1.closed ++ [db.connId] }
    | none => s1
  match s2.auditDb with
  | some db => { s2 with auditDb := none, closed := s2.closed ++ [db.connId] }
  | none => s2

/-- One observable operation against the module. -/
inductive Event where
  | getCore : Env → Event
  | getAuth : Env → Event
  | getAudit : Env → Event
  | closeAll : Event

/-- Is the event a `closeAll()` call? -/
def Event.isClose : Event → Bool
  | .closeAll => true
  | _ => false

/-- State effect of one event (call results discarded). -/
def step : Event → Sys → Sys
  | .getCore env, s => (getCore env s).2
  | .getAuth env, s => (getAuth env s).2
  | .getAudit env, s => (getAudit env s).2
  | .closeAll, s => closeAll s

/-- State after a sequence of events. -/
def runEvents : List Event → Sys → Sys
  | [], s => s
  | e :: es, s => runEvents es (step e s)

/-- No `closeAll()` occurs in the event sequence. -/
def noClose (evs : List Event) : Bool := evs.all (fun e => !e.isClose)

/-- Module state at process start: no connection open, fresh empty files. -/
def initSys : Sys :=
  { coreDb := none, authDb := none, auditDb := none,
    disk := { core := emptyCore, auth := emptyAuth, audit := emptyAudit },
    nextId := 0, opens := 0, pragmaRuns := 0,
    coreBoots := 0, authBoots := 0, auditBoots := 0, closed := [] }

/-- A call environment where every step succeeds and bcrypt is unavailable. -/
def okEnv : Env :=
  { openO := .ok, pragmaO := .ok, bootO := .ok, bcrypt := none }

/-- A call environment where the `ensure*Tables` DDL throws. -/
def bootFailEnv : Env :=
  { openO := .ok, pragmaO := .ok, bootO := .fail "SQLITE_ERROR", bcrypt := none }

/-- A call environment where `new Database(...)` throws. -/
def openFailEnv : Env :=
  { openO := .fail "SQLITE_CANTOPEN", pragmaO := .ok, bootO := .ok, bcrypt := none }

/-- Number of `filial` rows with the given `nome`. -/
def countFilial (nome : String) (t : List FilialRow) : Nat :=
  (t.filter (fun r => r.nome == nome)).length

/-- Number of `grupo_acesso` rows with the given `nome`. -/
def countGrupo (nome : String) (t : List GrupoAcessoRow) : Nat :=
  (t.filter (fun r => r.nome == nome)).length

/-- Number of `usuario_sistema` rows with the given `login`. -/
def countUsuario (login : String) (t : List UsuarioSistemaRow) : Nat :=
  (t.filter (fun r => r.login == login)).length

/-! ### Registry lemmas -/

lemma getCore_cached (env : Env) (s : Sys) (db : Handle) (h : s.coreDb = some db) :
    getCore env s = (.ok db, s) := by
  unfold getCore
  rw [h]

lemma getAuth_cached (env : Env) (s : Sys) (db : Handle) (h : s.authDb = some db) :
    getAuth env s = (.ok db, s) := by
  unfold getAuth
  rw [h]

lemma getAudit_cached (env : Env) (s : Sys) (db : Handle) (h : s.auditDb = some db) :
    getAudit env s = (.ok db, s) := by
  unfold getAudit
  rw [h]

lemma getCore_ok_cached {env : Env} {s : Sys} {h2 : Handle} {s2 : Sys}
    (hc : getCore env s = (.ok h2, s2)) : s2.coreDb = some h2 := by
  obtain ⟨o, p, b, bc⟩ := env
  obtain ⟨cdb, adb, udb, dk, nid, ops, prs, cb, ab, ub, cl⟩ := s
  cases cdb <;> cases o <;> cases p <;> cases b <;>
    simp_all [getCore, initDatabase] <;> simp [← hc.2, ← hc.1]

lemma getAuth_ok_cached {env : Env} {s : Sys} {h2 : Handle} {s2 : Sys}
    (hc : getAuth env s = (.ok h2, s2)) : s2.authDb = some h2 := by
  obtain ⟨o, p, b, bc⟩ := env
  obtain ⟨cdb, adb, udb, dk, nid, ops, prs, cb, ab, ub, cl⟩ := s
  cases adb <;> cases o <;> cases p <;> cases b <;>
    simp_all [getAuth, initDatabase] <;> simp [← hc.2, ← hc.1]

lemma getAudit_ok_cached {env : Env} {s : Sys} {h2 : Handle} {s2 : Sys}
    (hc : getAudit env s = (.ok h2, s2)) : s2.auditDb = some h2 := by
  obtain ⟨o, p, b, bc⟩ := env
  obtain ⟨cdb, adb, udb, dk, nid, ops, prs, cb, ab, ub, cl⟩ := s
  cases udb <;> cases o <;> cases p <;> cases b <;>
    simp_all [getAudit, initDatabase] <;> simp [← hc.2, ← hc.1]

/-- Per-store invariant: a bootstrap run has been attempted only when a
handle is cached, and at most one has been attempted. -/
def storeInv (db : Option Handle) (boots : Nat) : Prop :=
  (db = none → boots = 0) ∧ boots ≤ 1

/-- The per-store invariant for all three stores. -/
def sysInv (s : Sys) : Prop :=
  storeInv s.coreDb s.coreBoots ∧ storeInv s.authDb s.authBoots ∧
    storeInv s.auditDb s.auditBoots

lemma getCore_sysInv (env : Env) (s : Sys) (h : sysInv s) : sysInv (getCore env s).2 := by
  obtain ⟨o, p, b, bc⟩ := env
  obtain ⟨cdb, adb, udb, dk, nid, ops, prs, cb, ab, ub, cl⟩ := s
  obtain ⟨⟨hc0, hc1⟩, ha, hu⟩ := h
  cases cdb with
  | some db => exact ⟨⟨hc0, hc1⟩, ha, hu⟩
  | none =>
    have hcb : cb = 0 := hc0 rfl
    subst hcb
    cases o with
    | fail m => exact ⟨⟨fun _ => rfl, Nat.zero_le 1⟩, ha, hu⟩
    | ok =>
      cases p with
      | fail m => exact ⟨⟨fun _ => rfl, Nat.zero_le 1⟩, ha, hu⟩
      | ok =>
        cases b with
        | fail m =>
          refine ⟨⟨fun hx => ?_, Nat.le_refl 1⟩, ha, hu⟩
          simp [getCore, initDatabase] at hx
        | ok =>
          refine ⟨⟨fun hx => ?_, Nat.le_refl 1⟩, ha, hu⟩
          simp [getCore, initDatabase] at hx

lemma getAuth_sysInv (env : Env) (s : Sys) (h : sysInv s) : sysInv (getAuth env s).2 := by
  obtain ⟨o, p, b, bc⟩ := env
  obtain ⟨cdb, adb, udb, dk, nid, ops, prs, cb, ab, ub, cl⟩ := s
  obtain ⟨hc, ⟨ha0, ha1⟩, hu⟩ := h
  cases adb with
  | some db => exact ⟨hc, ⟨ha0, ha1⟩, hu⟩
  | none =>
    have hab : ab = 0 := ha0 rfl
    subst hab
    cases o with
    | fail m => exact ⟨hc, ⟨fun _ => rfl, Nat.zero_le 1⟩, hu⟩
    | ok =>
      cases p with
      | fail m => exact ⟨hc, ⟨fun _ => rfl, Nat.zero_le 1⟩, hu⟩
      | ok =>
        cases b with
        | fail m =>
          refine ⟨hc, ⟨fun hx => ?_, Nat.le_refl 1⟩, hu⟩
          simp [getAuth, initDatabase] at hx
        | ok =>
          refine ⟨hc, ⟨fun hx => ?_, Nat.le_refl 1⟩, hu⟩
          simp [getAuth, initDatabase] at hx

lemma getAudit_sysInv (env : Env) (s : Sys) (h : sysInv s) : sysInv (getAudit env s).2 := by
  obtain ⟨o, p, b, bc⟩ := env
  obtain ⟨cdb, adb, udb, dk, nid, ops, prs, cb, ab, ub, cl⟩ := s
  obtain ⟨hc, ha, ⟨hu0, hu1⟩⟩ := h
  cases udb with
  | some db => exact ⟨hc, ha, ⟨hu0, hu1⟩⟩
  | none =>
    have hub : ub = 0 := hu0 rfl
    subst hub
    cases o with
    | fail m => exact ⟨hc, ha, ⟨fun _ => rfl, Nat.zero_le 1⟩⟩
    | ok =>
      cases p with
      | fail m => exact ⟨hc, ha, ⟨fun _ => rfl, Nat.zero_le 1⟩⟩
      | ok =>
        cases b with
        | fail m =>
          refine ⟨hc, ha, ⟨fun hx => ?_, Nat.le_refl 1⟩⟩
          simp [getAudit, initDatabase] at hx
        | ok =>
          refine ⟨hc, ha, ⟨fun hx => ?_, Nat.le_refl 1⟩⟩
          simp [getAudit, initDatabase] at hx

lemma step_sysInv (e : Event) (s : Sys) (he : e.isClose = false) (h : sysInv s) :
    sysInv (step e s) := by
  cases e with
  | getCore env => exact getCore_sysInv env s h
  | getAuth env => exact getAuth_sysInv env s h
  | getAudit env => exact getAudit_sysInv env s h
  | closeAll => simp [Event.isClose] at he

lemma runEvents_sysInv (evs : List Event) (s : Sys) (hn : noClose evs = true)
    (h : sysInv s) : sysInv (runEvents evs s) := by
  induction evs generalizing s with
  | nil => exact h
  | cons e es ih =>
    simp only [noClose, List.all_cons, Bool.and_eq_true] at hn
    exact ih (step e s) hn.2 (step_sysInv e s (by simpa using hn.1) h)

lemma initSys_sysInv : sysInv initSys :=
  ⟨⟨fun _ => rfl, Nat.zero_le 1⟩, ⟨fun _ => rfl, Nat.zero_le 1⟩, ⟨fun _ => rfl, Nat.zero_le 1⟩⟩

/-! ### Claims -/

/-- Claim C1: for every store, when a getter call returns a handle, an
immediately following getter call returns the very same handle and leaves the
whole module state unchanged — so it opens no connection, re-applies no
durability directive and re-runs no bootstrap; and over any sequence of calls
with no `closeAll`, each store's open-plus-bootstrap sequence runs at most
once. -/
theorem getStore_singleton_bootstrap_once :
    (∀ env1 env2 s h s2, getCore env1 s = (.ok h, s2) → getCore env2 s2 = (.ok h, s2)) ∧
    (∀ env1 env2 s h s2, getAuth env1 s = (.ok h, s2) → getAuth env2 s2 = (.ok h, s2)) ∧
    (∀ env1 env2 s h s2, getAudit env1 s = (.ok h, s2) → getAudit env2 s2 = (.ok h, s2)) ∧
    (∀ evs, noClose evs = true →
       (runEvents evs initSys).coreBoots ≤ 1 ∧ (runEvents evs initSys).authBoots ≤ 1 ∧
       (runEvents evs initSys).auditBoots ≤ 1) := by
  refine ⟨?_, ?_, ?_, ?_⟩
  · intro env1 env2 s h s2 hc
    exact getCore_cached env2 s2 h (getCore_ok_cached hc)
  · intro env1 env2 s h s2 hc
    exact getAuth_cached env2 s2 h (getAuth_ok_cached hc)
  · intro env1 env2 s h s2 hc
    exact getAudit_cached env2 s2 h (getAudit_ok_cached hc)
  · intro evs hn
    obtain ⟨⟨_, h1⟩, ⟨_, h2⟩, ⟨_, h3⟩⟩ := runEvents_sysInv evs initSys hn initSys_sysInv
    exact ⟨h1, h2, h3⟩

/-- Witness for claim C1: a concrete second `getCore` call returns the cached
handle unchanged, and a concrete two-call sequence bootstraps core at most
once. -/
theorem getStore_singleton_bootstrap_once_witness :
    getCore okEnv (getCore okEnv initSys).2 =
      (.ok { connId := 0, pragmas := pragmaDirectives, bootstrapped := true },
       (getCore okEnv initSys).2) ∧
    (runEvents [Event.getCore okEnv, Event.getCore okEnv] initSys).coreBoots ≤ 1 := by
  constructor
  · exact getStore_singleton_bootstrap_once.1 okEnv okEnv initSys
      { connId := 0, pragmas := pragmaDirectives, bootstrapped := true }
      (getCore okEnv initSys).2 rfl
  · exact (getStore_singleton_bootstrap_once.2.2.2
      [Event.getCore okEnv, Event.getCore okEnv] rfl).1

/-- Claim C2 (code bug): `getCore` assigns the module-level `coreDb` variable
before `ensureCoreTables(coreDb)` runs (database.js lines 831-832), so when
the table-creation step throws, the failed call leaves the handle cached with
no tables created, and the next call returns that never-bootstrapped handle
without retrying the open-plus-bootstrap sequence — contradicting the claim
and the file's own v5 header, which promises that tables are auto-created
when each database is connected. -/
theorem failed_bootstrap_leaves_cached_handle :
    (getCore bootFailEnv initSys).1 = .error (.raw "SQLITE_ERROR") ∧
    (getCore bootFailEnv initSys).2.coreDb =
      some { connId := 0, pragmas := pragmaDirectives, bootstrapped := false } ∧
    (getCore bootFailEnv initSys).2.coreBoots = 1 ∧
    getCore okEnv (getCore bootFailEnv initSys).2 =
      (.ok { connId := 0, pragmas := pragmaDirectives, bootstrapped := false },
       (getCore bootFailEnv initSys).2) :=
  ⟨rfl, rfl, rfl, rfl⟩

/-- Claim C3, counterexample: it is not the case that every table named in a
FOREIGN KEY clause of a core bootstrap statement appears earlier in the
creation sequence. -/
theorem core_fk_order_violated : fkRefsOrdered coreTableDefs [] = false := by decide

/-- Claim C3, amended: every FOREIGN KEY reference in the core bootstrap
sequence points to an earlier table except the single forward reference from
`pedido` to `cupom` (`pedido` is created at position 11, `cupom` only at
position 16). -/
theorem core_fk_forward_refs_only_pedido_cupom :
    forwardFkRefs coreTableDefs [] = [("pedido", "cupom")] := by decide

/-- Claim C4: for every work function that throws inside `transaction`, the
store's observable data after the call equals the data before the call. -/
theorem transaction_rollback_on_error {σ : Type} (fn : σ → Except String σ) (s : σ)
    (e : String) (h : fn s = .error e) : (transaction fn s).2 = s := by
  simp [transaction, engineTransaction, h]

/-- Witness for claim C4 at a concrete always-throwing work function. -/
theorem transaction_rollback_on_error_witness :
    (transaction (fun _ : Nat => (.error "boom" : Except String Nat)) 7).2 = 7 :=
  transaction_rollback_on_error (fun _ => .error "boom") 7 "boom" rfl

/-- Claim C5: for every work function that throws inside `transaction`, the
caller observes a `TransactionError` wrapping the original cause — the
failure is never swallowed. -/
theorem transaction_propagates_wrapped_cause {σ : Type} (fn : σ → Except String σ) (s : σ)
    (e : String) (h : fn s = .error e) :
    (transaction fn s).1 = .error { cause := e } := by
  simp [transaction, engineTransaction, h]

/-- Witness for claim C5 at a concrete always-throwing work function. -/
theorem transaction_propagates_wrapped_cause_witness :
    (transaction (fun _ : Nat => (.error "disk full" : Except String Nat)) 3).1 =
      .error { cause := "disk full" } :=
  transaction_propagates_wrapped_cause (fun _ => .error "disk full") 3 "disk full" rfl

/-- Claim C6, counterexample: when the engine cannot open core.db, the
failure `getCore` surfaces is the engine's own error unchanged — not a
ConnectionError-shaped wrapper carrying the store name and the cause. -/
theorem open_failure_error_not_wrapped :
    (getCore openFailEnv initSys).1 = .error (.raw "SQLITE_CANTOPEN") ∧
    isConnectionError (getCore openFailEnv initSys).1 = false :=
  ⟨rfl, rfl⟩

/-- Claim C6, amended: if the engine cannot open a store's file, or a
durability directive fails to apply, the getter fails by propagating the
underlying cause unchanged (the store name is only logged, not attached to
the error), and that store's handle stays unset so the next call retries. -/
theorem open_failure_raw_and_retryable :
    (∀ env s m, s.coreDb = none → env.openO = .fail m →
       getCore env s = (.error (.raw m), s)) ∧
    (∀ env s m, s.coreDb = none → env.openO = .ok → env.pragmaO = .fail m →
       (getCore env s).1 = .error (.raw m) ∧ (getCore env s).2.coreDb = none ∧
       (getCore env s).2.coreBoots = s.coreBoots) ∧
    (∀ env s m, s.authDb = none → env.openO = .fail m →
       getAuth env s = (.error (.raw m), s)) ∧
    (∀ env s m, s.authDb = none → env.openO = .ok → env.pragmaO = .fail m →
       (getAuth env s).1 = .error (.raw m) ∧ (getAuth env s).2.authDb = none ∧
       (getAuth env s).2.authBoots = s.authBoots) ∧
    (∀ env s m, s.auditDb = none → env.openO = .fail m →
       getAudit env s = (.error (.raw m), s)) ∧
    (∀ env s m, s.auditDb = none → env.openO = .ok → env.pragmaO = .fail m →
       (getAudit env s).1 = .error (.raw m) ∧ (getAudit env s).2.auditDb = none ∧
       (getAudit env s).2.auditBoots = s.auditBoots) := by
  refine ⟨?_, ?_, ?_, ?_, ?_, ?_⟩
  · intro env s m h1 h2
    simp [getCore, initDatabase, h1, h2]
  · intro env s m h1 h2 h3
    refine ⟨?_, ?_, ?_⟩ <;> simp [getCore, initDatabase, h1, h2, h3]
  · intro env s m h1 h2
    simp [getAuth, initDatabase, h1, h2]
  · intro env s m h1 h2 h3
    refine ⟨?_, ?_, ?_⟩ <;> simp [getAuth, initDatabase, h1, h2, h3]
  · intro env s m h1 h2
    simp [getAudit, initDatabase, h1, h2]
  · intro env s m h1 h2 h3
    refine ⟨?_, ?_, ?_⟩ <;> simp [getAudit, initDatabase, h1, h2, h3]

/-- Witness for claim C6 (amended): concrete open failure on core. -/
theorem open_failure_raw_and_retryable_witness :
    getCore openFailEnv initSys = (.error (.raw "SQLITE_CANTOPEN"), initSys) :=
  open_failure_raw_and_retryable.1 openFailEnv initSys "SQLITE_CANTOPEN" rfl rfl

set_option maxHeartbeats 1000000 in
/-- Claim C7: when the bcrypt capability is unavailable, auth bootstrap flags
the warning and skips only the default admin seed row: every table and the
'Admin' group seed are exactly as with bcrypt available, existing users are
untouched, and a `getAuth` call whose DDL succeeds still returns a ready
handle. -/
theorem auth_bootstrap_tolerates_hash_failure :
    (∀ d : AuthData, (ensureAuthTables none d).2 = true) ∧
    (∀ d : AuthData, (ensureAuthTables none d).1.usuario_sistema = d.usuario_sistema) ∧
    (∀ (d : AuthData) (hs : String → Nat → String),
       (ensureAuthTables none d).1.tables = (ensureAuthTables (some hs) d).1.tables ∧
       (ensureAuthTables none d).1.grupo_acesso =
         (ensureAuthTables (some hs) d).1.grupo_acesso) ∧
    (∀ env s, s.authDb = none → env.openO = .ok → env.pragmaO = .ok → env.bootO = .ok →
       env.bcrypt = none →
       (getAuth env s).1 =
         .ok { connId := s.nextId, pragmas := pragmaDirectives, bootstrapped := true }) := by
  refine ⟨fun d => rfl, fun d => ?_, fun d hs => ?_, fun env s h1 h2 h3 h4 h5 => ?_⟩
  · simp [ensureAuthTables]
  · cases hadm : d.usuario_sistema.any (fun u => u.login == "admin") <;>
      constructor <;> simp [ensureAuthTables, hadm]
  · simp [getAuth, initDatabase, h1, h2, h3, h4]

/-- Witness for claim C7: concrete hash-unavailable bootstrap on a fresh
store. -/
theorem auth_bootstrap_tolerates_hash_failure_witness :
    (ensureAuthTables none emptyAuth).2 = true ∧
    (getAuth okEnv initSys).1 =
      .ok { connId := 0, pragmas := pragmaDirectives, bootstrapped := true } :=
  ⟨auth_bootstrap_tolerates_hash_failure.1 emptyAuth,
   auth_bootstrap_tolerates_hash_failure.2.2.2 okEnv initSys rfl rfl rfl rfl rfl⟩

/-- The contents of auth.db after the first auth bootstrap on a fresh file
with bcrypt available. -/
def authSeedResult (hs : String → Nat → String) : AuthData :=
  { tables := authTableNames,
    grupo_acesso := [{ nome := "Admin", descricao := "Administrador total do sistema" }],
    usuario_sistema := [{ nome_completo := "Administrador", login := "admin",
                          senha_hash := hs "admin123" 10, email := none,
                          filial_id := some 1, grupo_acesso_id := some 1 }] }

set_option maxRecDepth 10000 in
set_option maxHeartbeats 4000000 in
lemma ensureAuthTables_emptyAuth (hs : String → Nat → String) :
    ensureAuthTables (some hs) emptyAuth = (authSeedResult hs, false) := rfl

set_option maxRecDepth 10000 in
set_option maxHeartbeats 4000000 in
lemma ensureAuthTables_seedResult (hs : String → Nat → String) :
    ensureAuthTables (some hs) (authSeedResult hs) = (authSeedResult hs, false) := rfl

set_option maxRecDepth 10000 in
/-- Claim C8: after the first bootstrap of each store on a fresh file the
default seed rows exist — exactly one 'Principal' filial, exactly one 'Admin'
access group, exactly one 'admin' account when hashing succeeds, and the
`urls_autorizadas` table — and running the same bootstrap a second time
returns the store contents entirely unchanged, so no seed is duplicated or
overwritten. -/
theorem default_seeds_once_and_idempotent (hs : String → Nat → String) :
    countFilial "Principal" (ensureCoreTables emptyCore).filial = 1 ∧
    ensureCoreTables (ensureCoreTables emptyCore) = ensureCoreTables emptyCore ∧
    countGrupo "Admin" (ensureAuthTables (some hs) emptyAuth).1.grupo_acesso = 1 ∧
    countUsuario "admin" (ensureAuthTables (some hs) emptyAuth).1.usuario_sistema = 1 ∧
    ((ensureAuthTables (some hs) emptyAuth).1.tables.contains "urls_autorizadas") = true ∧
    (ensureAuthTables (some hs) (ensureAuthTables (some hs) emptyAuth).1).1 =
      (ensureAuthTables (some hs) emptyAuth).1 ∧
    ensureAuditTables (ensureAuditTables emptyAudit) = ensureAuditTables emptyAudit :=
  ⟨by decide, by decide, rfl, rfl, rfl,
   by
     rw [ensureAuthTables_emptyAuth]
     show (ensureAuthTables (some hs) (authSeedResult hs)).1 = authSeedResult hs
     rw [ensureAuthTables_seedResult],
   by decide⟩

set_option maxRecDepth 10000 in
set_option maxHeartbeats 1000000 in
/-- Claim C9: `closeAll` with nothing open is a no-op; `closeAll` is safe to
repeat; it always clears all three cached handles and closes every handle
that was open; and a `getCore` after `closeAll` reopens the store with a
fresh connection, reruns the bootstrap, and leaves the persisted core data
identical to before — with still exactly one default filial row. -/
theorem closeAll_contract :
    closeAll initSys = initSys ∧
    (∀ s, closeAll (closeAll s) = closeAll s) ∧
    (∀ s, (closeAll s).coreDb = none ∧ (closeAll s).authDb = none ∧
      (closeAll s).auditDb = none) ∧
    (∀ s db, s.coreDb = some db → db.connId ∈ (closeAll s).closed) ∧
    (∀ s db, s.authDb = some db → db.connId ∈ (closeAll s).closed) ∧
    (∀ s db, s.auditDb = some db → db.connId ∈ (closeAll s).closed) ∧
    ((getCore okEnv (closeAll (getCore okEnv initSys).2)).1 =
       .ok { connId := 1, pragmas := pragmaDirectives, bootstrapped := true } ∧
     (getCore okEnv (closeAll (getCore okEnv initSys).2)).2.coreBoots = 2 ∧
     (getCore okEnv (closeAll (getCore okEnv initSys).2)).2.disk.core =
       (getCore okEnv initSys).2.disk.core ∧
     countFilial "Principal"
       (getCore okEnv (closeAll (getCore okEnv initSys).2)).2.disk.core.filial = 1) := by
  refine ⟨rfl, ?_, ?_, ?_, ?_, ?_, rfl, by decide, by decide, by decide⟩
  · intro s
    obtain ⟨cdb, adb, udb, dk, nid, ops, prs, cb, ab, ub, cl⟩ := s
    cases cdb <;> cases adb <;> cases udb <;> rfl
  · intro s
    obtain ⟨cdb, adb, udb, dk, nid, ops, prs, cb, ab, ub, cl⟩ := s
    cases cdb <;> cases adb <;> cases udb <;> exact ⟨rfl, rfl, rfl⟩
  · intro s db h
    obtain ⟨cdb, adb, udb, dk, nid, ops, prs, cb, ab, ub, cl⟩ := s
    subst h
    cases adb <;> cases udb <;> simp [closeAll]
  · intro s db h
    obtain ⟨cdb, adb, udb, dk, nid, ops, prs, cb, ab, ub, cl⟩ := s
    subst h
    cases cdb <;> cases udb <;> simp [closeAll]
  · intro s db h
    obtain ⟨cdb, adb, udb, dk, nid, ops, prs, cb, ab, ub, cl⟩ := s
    subst h
    cases cdb <;> cases adb <;> simp [closeAll]

/-- Witness for claim C9: the handle opened by a concrete `getCore` call is
among those closed by `closeAll`. -/
theorem closeAll_contract_witness :
    ({ connId := 0, pragmas := pragmaDirectives, bootstrapped := true } : Handle).connId ∈
      (closeAll (getCore okEnv initSys).2).closed :=
  closeAll_contract.2.2.2.1 (getCore okEnv initSys).2
    { connId := 0, pragmas := pragmaDirectives, bootstrapped := true } rfl

/-- Claim C10: with bcrypt available, the first auth bootstrap on a fresh
store seeds exactly one account — login 'admin', password hash
`hashSync "admin123" 10` (bcryptjs, cost factor 10), `filial_id` 1 and
`grupo_acesso_id` 1 — and inserts nothing when a user with login 'admin'
already exists. -/
theorem admin_seed_row_values :
    (∀ hs : String → Nat → String,
       (ensureAuthTables (some hs) emptyAuth).1.usuario_sistema =
         [{ nome_completo := "Administrador", login := "admin",
            senha_hash := hs "admin123" 10, email := none,
            filial_id := some 1, grupo_acesso_id := some 1 }]) ∧
    (∀ (hs : String → Nat → String) (d : AuthData),
       d.usuario_sistema.any (fun u => u.login == "admin") = true →
       (ensureAuthTables (some hs) d).1.usuario_sistema = d.usuario_sistema) := by
  refine ⟨fun hs => rfl, fun hs d h => ?_⟩
  simp [ensureAuthTables, h]

/-- An auth store that already holds a user with login 'admin'. -/
def seededAuth : AuthData :=
  { tables := [], grupo_acesso := [],
    usuario_sistema := [{ nome_completo := "Gerente", login := "admin",
                          senha_hash := "hash0", email := none,
                          filial_id := none, grupo_acesso_id := none }] }

/-- Witness for claim C10: with an 'admin' user already present, a concrete
bootstrap inserts nothing. -/
theorem admin_seed_row_values_witness :
    (ensureAuthTables (some (fun p c => p ++ toString c)) seededAuth).1.usuario_sistema =
      seededAuth.usuario_sistema :=
  admin_seed_row_values.2 (fun p c => p ++ toString c) seededAuth rfl

end Db
